import Mathlib

/-!
Shallow embedding of the inbound-call routing and voicemail-fallback webhook
handlers of the nomadic-phone server (`src/server/routes/webhooks.js`,
TypeScript variant), together with theorems settling the specification
claims about them.

Requests are `application/x-www-form-urlencoded` POST bodies; fields that
may be absent are modelled as `Option String` (with `none` also standing
for the empty string wherever the handler only tests JS truthiness).
Handlers are pure functions from the request fields they read to the
HTTP response they produce paired with the list of push notifications
they dispatch.
-/

namespace Nomadic

/-- JS truthiness of an optional string field: `undefined` and `""` are falsy. -/
def jsTruthy : Option String → Bool
  | none => false
  | some s => s != ""

/-- JS array `includes` applied to a possibly-undefined string
(`includes(undefined)` is `false` for a list of strings). -/
def jsIncludes (l : List String) : Option String → Bool
  | none => false
  | some s => l.contains s

/-- Leading decimal digits of a character list, `none` when there are none
(the NaN case of `parseInt`). -/
def parseDigits (cs : List Char) : Option Nat :=
  let ds := cs.takeWhile Char.isDigit
  if ds.isEmpty then none
  else some (ds.foldl (fun a c => a * 10 + (c.toNat - 48)) 0)

/-- JS `parseInt` on a string (radix 10): skip leading whitespace, optional
sign, then the longest digit prefix; `none` models `NaN`. -/
def jsParseInt (s : String) : Option Int :=
  match s.data.dropWhile Char.isWhitespace with
  | '-' :: rest => (parseDigits rest).map (fun n => -(n : Int))
  | '+' :: rest => (parseDigits rest).map (fun n => (n : Int))
  | cs => (parseDigits cs).map (fun n => (n : Int))

/-- The function `parseInt` on a possibly-absent field (`parseInt(undefined)` is `NaN`). -/
def jsParseIntOpt : Option String → Option Int
  | none => none
  | some s => jsParseInt s

/-- The JS idiom `parseInt(x) || d`: `NaN` and `0` both fall back to `d`. -/
def jsOr (o : Option Int) (d : Int) : Int :=
  match o with
  | none => d
  | some k => if k = 0 then d else k

/-- The JS comparison `parseInt(x) > 0`, false on `NaN`. -/
def jsGtZero : Option Int → Bool
  | none => false
  | some k => decide (0 < k)

/-- The expression `parseInt(req.query.attempt) || 1`, the attempt counter
read at the top of the dial-client and dial-result handlers. -/
def jsAttempt (q : Option String) : Int :=
  jsOr (jsParseIntOpt q) 1

/-- The slice of `config.js` the webhook routes read.  Optional env vars are
`Option String`; `none` also stands for the empty string (both are falsy
where the handlers test them). -/
structure Config where
  TWILIO_PHONE_NUMBER : String
  TWILIO_AUTH_TOKEN : Option String
  NODE_ENV : String
  WEBHOOK_BASE_URL : String
  APP_URL : String
  REDIRECT_NUMBER : Option String
  VOICE_MESSAGE : Option String
deriving DecidableEq, Repr

/-- One TwiML verb of the call-control documents the handlers build.  Only
the attributes the source sets are modelled; `dialNumber`/`dialClient`
carry the optional `callerId`, `timeout` and `action` attributes and the
dialled target. -/
inductive Verb
  | say (voice : Option String) (message : String)
  | pause (length : Nat)
  | dialNumber (callerId : Option String) (timeout : Option Nat) (action : Option String) (number : String)
  | dialClient (callerId : Option String) (timeout : Option Nat) (action : Option String) (identity : String)
  | redirect (url : String)
  | record (maxLength : Nat) (recordingStatusCallback : String)
deriving DecidableEq, Repr

/-- A push notification dispatched through the pushover service. -/
inductive Notification
  | incomingCall (caller sid : String)
  | missedCall (caller sid : String)
  | voicemail (durationStr : String)
deriving DecidableEq, Repr

/-- The body of an HTTP response: a TwiML document, plain text, or a JSON
error object (modelled by its error message). -/
inductive HttpBody
  | xml (doc : List Verb)
  | text (s : String)
  | json (err : String)
deriving DecidableEq, Repr

/-- An HTTP response together with the notifications dispatched while
producing it. -/
structure Response where
  status : Nat
  body : HttpBody
  notifs : List Notification
deriving DecidableEq, Repr

/-- The callback URL `WEBHOOK_BASE_URL ++ "/webhooks/voice/call-timeout"`. -/
def callTimeoutUrl (cfg : Config) : String :=
  cfg.WEBHOOK_BASE_URL ++ "/webhooks/voice/call-timeout"

/-- The callback URL `WEBHOOK_BASE_URL ++ "/webhooks/voice/dial-client?attempt=" ++ a`. -/
def dialClientUrl (cfg : Config) (attempt : Int) : String :=
  cfg.WEBHOOK_BASE_URL ++ "/webhooks/voice/dial-client?attempt=" ++ toString attempt

/-- The callback URL `WEBHOOK_BASE_URL ++ "/webhooks/voice/dial-result?attempt=" ++ a`. -/
def dialResultUrl (cfg : Config) (attempt : Int) : String :=
  cfg.WEBHOOK_BASE_URL ++ "/webhooks/voice/dial-result?attempt=" ++ toString attempt

/-- The callback URL `WEBHOOK_BASE_URL ++ "/webhooks/voice/dial-status"`. -/
def dialStatusUrl (cfg : Config) : String :=
  cfg.WEBHOOK_BASE_URL ++ "/webhooks/voice/dial-status"

/-- The callback URL `WEBHOOK_BASE_URL ++ "/webhooks/voice/recording"`. -/
def recordingUrl (cfg : Config) : String :=
  cfg.WEBHOOK_BASE_URL ++ "/webhooks/voice/recording"

/-- Handler of POST `/voice/twiml-app`: incoming calls (To = provisioned number) notify
and either dial the redirect number (30s timeout, call-timeout action) or
redirect into the retry loop at attempt 1; any other To is treated as an
outbound Voice-SDK call and bridged to To with the provisioned number as
caller ID and a dial-status action. -/
def twimlApp (cfg : Config) (To From CallSid : String) : Response :=
  if To = cfg.TWILIO_PHONE_NUMBER then
    let notifs := [Notification.incomingCall From CallSid]
    if jsTruthy cfg.REDIRECT_NUMBER then
      ⟨200, HttpBody.xml [Verb.dialNumber none (some 30) (some (callTimeoutUrl cfg)) (cfg.REDIRECT_NUMBER.getD "")], notifs⟩
    else
      ⟨200, HttpBody.xml [Verb.redirect (dialClientUrl cfg 1)], notifs⟩
  else
    ⟨200, HttpBody.xml [Verb.dialNumber (some cfg.TWILIO_PHONE_NUMBER) none (some (dialStatusUrl cfg)) To], []⟩

/-- Handler of POST `/voice/dial-client` after parsing the attempt counter: filler
speech, a 2s pause, then a 5s dial of the `nomadic_client` identity whose
`action` is `dial-result?attempt=` the same attempt value. -/
def dialClientHandler (cfg : Config) (attempt : Int) (To : Option String) : Response :=
  ⟨200, HttpBody.xml
    [Verb.say (some "Polly.Joanna") "Connecting your call, please wait.",
     Verb.pause 2,
     Verb.dialClient To (some 5) (some (dialResultUrl cfg attempt)) "nomadic_client"], []⟩

/-- Route for POST `/voice/dial-client`: parses `attempt` from the query string with
`parseInt(..) || 1`. -/
def dialClientRoute (cfg : Config) (q : Option String) (To : Option String) : Response :=
  dialClientHandler cfg (jsAttempt q) To

/-- The constant `maxAttempts` in the dial-result handler. -/
def maxAttempts : Int := 10

/-- Handler of POST `/voice/dial-result` after parsing the attempt counter: empty
document on `completed`; redirect to call-timeout on a rejected status;
otherwise retry at `attempt+1` while below `maxAttempts`, else redirect to
call-timeout. -/
def dialResultHandler (cfg : Config) (attempt : Int) (DialCallStatus : Option String) : Response :=
  if DialCallStatus = some "completed" then
    ⟨200, HttpBody.xml [], []⟩
  else if jsIncludes ["canceled", "busy", "failed"] DialCallStatus then
    ⟨200, HttpBody.xml [Verb.redirect (callTimeoutUrl cfg)], []⟩
  else if attempt < maxAttempts then
    ⟨200, HttpBody.xml [Verb.redirect (dialClientUrl cfg (attempt + 1))], []⟩
  else
    ⟨200, HttpBody.xml [Verb.redirect (callTimeoutUrl cfg)], []⟩

/-- Route for POST `/voice/dial-result`: parses `attempt` from the query string with
`parseInt(..) || 1`. -/
def dialResultRoute (cfg : Config) (q : Option String) (DialCallStatus : Option String) : Response :=
  dialResultHandler cfg (jsAttempt q) DialCallStatus

/-- Handler of POST `/voice/call-timeout`: absent/falsy or unanswered `DialCallStatus`
yields the voicemail prompt (when configured) followed by a 300s-bounded
record verb naming the recording callback; otherwise an empty document. -/
def callTimeout (cfg : Config) (DialCallStatus : Option String) : Response :=
  if !jsTruthy DialCallStatus || jsIncludes ["no-answer", "busy", "failed", "canceled"] DialCallStatus then
    ⟨200, HttpBody.xml
      ((if jsTruthy cfg.VOICE_MESSAGE then [Verb.say none (cfg.VOICE_MESSAGE.getD "")] else []) ++
       [Verb.record 300 (recordingUrl cfg)]), []⟩
  else
    ⟨200, HttpBody.xml [], []⟩

/-- Handler of POST `/voice/status`: a completed inbound call to the provisioned number
with `parseInt(CallDuration) || 0 < 5` dispatches a missed-call
notification, as does any of the four terminal unanswered statuses on an
inbound call to that number; always responds 200 OK. -/
def voiceStatus (cfg : Config) (CallStatus CallDuration : Option String)
    (From CallSid To Direction : String) : Response :=
  let completedNotifs :=
    if CallStatus = some "completed" then
      if Direction = "inbound" ∧ To = cfg.TWILIO_PHONE_NUMBER then
        if jsOr (jsParseIntOpt CallDuration) 0 < 5 then
          [Notification.missedCall From CallSid]
        else []
      else []
    else []
  let unansweredNotifs :=
    if jsIncludes ["failed", "canceled", "busy", "no-answer"] CallStatus then
      if Direction = "inbound" ∧ To = cfg.TWILIO_PHONE_NUMBER then
        [Notification.missedCall From CallSid]
      else []
    else []
  ⟨200, HttpBody.text "OK", completedNotifs ++ unansweredNotifs⟩

/-- Handler of POST `/voice/recording`: dispatches a voicemail notification exactly
when `RecordingDuration` is truthy and `parseInt(RecordingDuration) > 0`;
always responds 200 OK. -/
def recording (cfg : Config) (RecordingDuration : Option String) : Response :=
  if jsTruthy RecordingDuration && jsGtZero (jsParseIntOpt RecordingDuration) then
    ⟨200, HttpBody.text "OK", [Notification.voicemail (RecordingDuration.getD "")]⟩
  else
    ⟨200, HttpBody.text "OK", []⟩

/-- Outcome of the `validateTwilioRequest` middleware: pass the request on,
or short-circuit with an error status and JSON error message. -/
inductive MwResult
  | proceed
  | reject (status : Nat) (err : String)
deriving DecidableEq, Repr

/-- The `validateTwilioRequest` middleware: outside production it always
proceeds; in production a missing auth token yields 500 and an invalid
carrier signature (the result of `twilio.validateRequest`, abstracted as a
boolean input) yields 403. -/
def validateTwilioRequest (cfg : Config) (signatureValid : Bool) : MwResult :=
  if cfg.NODE_ENV = "production" then
    if !jsTruthy cfg.TWILIO_AUTH_TOKEN then
      MwResult.reject 500 "Twilio auth token not configured"
    else if !signatureValid then
      MwResult.reject 403 "Invalid Twilio signature"
    else
      MwResult.proceed
  else
    MwResult.proceed

/-- A webhook route: the middleware runs first; only when it proceeds is
the handler's response (with its notifications) produced. -/
def runRoute (cfg : Config) (signatureValid : Bool) (handlerResponse : Response) : Response :=
  match validateTwilioRequest cfg signatureValid with
  | MwResult.reject c e => ⟨c, HttpBody.json e, []⟩
  | MwResult.proceed => handlerResponse

/-- The TwiML document of a response (empty for non-XML bodies). -/
def docOf (r : Response) : List Verb :=
  match r.body with
  | HttpBody.xml d => d
  | _ => []

/-- The `action` attributes of the dial verbs of a document, in order. -/
def dialActions : List Verb → List (Option String)
  | [] => []
  | Verb.dialNumber _ _ a _ :: rest => a :: dialActions rest
  | Verb.dialClient _ _ a _ :: rest => a :: dialActions rest
  | _ :: rest => dialActions rest

/-- Whether a document contains a spoken message. -/
def hasSay : List Verb → Bool
  | [] => false
  | Verb.say _ _ :: _ => true
  | _ :: rest => hasSay rest

/-- A concrete production configuration used to instantiate theorems. -/
def cfgW : Config :=
  ⟨"+15550001111", some "authtok", "production", "https://example.org",
   "https://app.example.org", none, some "Please leave a message after the beep."⟩

/-- A concrete non-production configuration. -/
def cfgDev : Config :=
  ⟨"+15550001111", none, "development", "https://example.org",
   "https://app.example.org", none, some "Please leave a message after the beep."⟩

/- Helper lemmas about string concatenation, used to separate callback URLs. -/

theorem string_append_left_cancel {s a b : String} (h : s ++ a = s ++ b) : a = b := by
  have hd : (s ++ a).data = (s ++ b).data := congrArg String.data h
  rw [String.data_append, String.data_append] at hd
  exact String.ext (List.append_cancel_left hd)

theorem string_append_right_ne (s : String) {a b : String} (h : a ≠ b) :
    s ++ a ≠ s ++ b :=
  fun hc => h (string_append_left_cancel hc)

theorem char_list_append_ne {u v : List Char} (i : Nat) (hu : i < u.length)
    (hv : i < v.length) (hne : u.get ⟨i, hu⟩ ≠ v.get ⟨i, hv⟩) (t : List Char) :
    u ++ t ≠ v := by
  intro h
  apply hne
  have hut : i < (u ++ t).length := by
    rw [List.length_append]; omega
  have h1 : (u ++ t)[i] = u[i] := List.getElem_append_left hu
  have h2 : (u ++ t).get ⟨i, hut⟩ = v.get ⟨i, hv⟩ := by
    simp only [List.get_eq_getElem]
    congr 1
  simp only [List.get_eq_getElem] at h2 ⊢
  rw [← h2, h1]

/-- No dial-client retry URL ever coincides with the call-timeout URL: the
two paths differ right after the shared `/webhooks/voice/` segment. -/
theorem dialClientUrl_ne_callTimeoutUrl (cfg : Config) (k : Int) :
    dialClientUrl cfg k ≠ callTimeoutUrl cfg := by
  unfold dialClientUrl callTimeoutUrl
  rw [String.append_assoc]
  apply string_append_right_ne
  intro h
  have hd := congrArg String.data h
  rw [String.data_append] at hd
  exact char_list_append_ne 16 (by decide) (by decide) (by decide) _ hd

/-- Retry URLs with distinct decimal attempt counters are distinct. -/
theorem dialClientUrl_ne_of_repr_ne (cfg : Config) {a b : Int}
    (h : toString a ≠ toString b) : dialClientUrl cfg a ≠ dialClientUrl cfg b := by
  intro hc
  unfold dialClientUrl at hc
  exact h (string_append_left_cancel hc)

/-- The dial-result handler on any status that is neither `completed` nor
rejected takes the retry-or-exhaust branch. -/
theorem dialResultHandler_default (cfg : Config) (a : Int) (s : Option String)
    (h1 : s ≠ some "completed")
    (h2 : jsIncludes ["canceled", "busy", "failed"] s = false) :
    dialResultHandler cfg a s =
      if a < maxAttempts then
        ⟨200, HttpBody.xml [Verb.redirect (dialClientUrl cfg (a + 1))], []⟩
      else
        ⟨200, HttpBody.xml [Verb.redirect (callTimeoutUrl cfg)], []⟩ := by
  unfold dialResultHandler
  rw [if_neg h1, if_neg (by simp [h2])]

theorem jsIncludes_some_iff (l : List String) (s : String) :
    jsIncludes l (some s) = true ↔ s ∈ l := by
  simp [jsIncludes, List.contains, List.elem_iff]

/-- C1: a `no-answer` dial result at attempt `n` with `1 ≤ n ≤ 9` redirects
to `dial-client?attempt=n+1`; at `n = 10` (`maxAttempts`) it redirects to
`call-timeout`; and for every `n ≥ 1` the emitted document never redirects
to attempt 11. -/
theorem C1_no_answer_retry_bounds (cfg : Config) (q : Option String) (n : Int)
    (hq : jsAttempt q = n) :
    (1 ≤ n → n ≤ 9 →
      dialResultRoute cfg q (some "no-answer") =
        ⟨200, HttpBody.xml [Verb.redirect (dialClientUrl cfg (n + 1))], []⟩) ∧
    (n = 10 →
      dialResultRoute cfg q (some "no-answer") =
        ⟨200, HttpBody.xml [Verb.redirect (callTimeoutUrl cfg)], []⟩) ∧
    (1 ≤ n →
      Verb.redirect (dialClientUrl cfg 11) ∉
        docOf (dialResultRoute cfg q (some "no-answer"))) := by
  have hr : dialResultRoute cfg q (some "no-answer") =
      if n < maxAttempts then
        ⟨200, HttpBody.xml [Verb.redirect (dialClientUrl cfg (n + 1))], []⟩
      else
        ⟨200, HttpBody.xml [Verb.redirect (callTimeoutUrl cfg)], []⟩ := by
    rw [dialResultRoute, hq]
    exact dialResultHandler_default cfg n (some "no-answer") (by decide) rfl
  refine ⟨?_, ?_, ?_⟩
  · intro h1 h9
    rw [hr, if_pos (by unfold maxAttempts; omega)]
  · intro h10
    rw [hr, if_neg (by unfold maxAttempts; omega)]
  · intro h1
    by_cases h9 : n ≤ 9
    · rw [hr, if_pos (by unfold maxAttempts; omega)]
      unfold docOf
      simp only [List.mem_singleton]
      intro heq
      injection heq with hurl
      revert hurl
      apply dialClientUrl_ne_of_repr_ne
      interval_cases n <;> decide
    · rw [hr, if_neg (by unfold maxAttempts; omega)]
      unfold docOf
      simp only [List.mem_singleton]
      intro heq
      injection heq with hurl
      exact dialClientUrl_ne_callTimeoutUrl cfg 11 hurl

theorem C1_witness :
    (dialResultRoute cfgW (some "3") (some "no-answer") =
      ⟨200, HttpBody.xml [Verb.redirect (dialClientUrl cfgW 4)], []⟩) ∧
    (dialResultRoute cfgW (some "10") (some "no-answer") =
      ⟨200, HttpBody.xml [Verb.redirect (callTimeoutUrl cfgW)], []⟩) :=
  ⟨(C1_no_answer_retry_bounds cfgW (some "3") 3 (by decide)).1 (by decide) (by decide),
   (C1_no_answer_retry_bounds cfgW (some "10") 10 (by decide)).2.1 rfl⟩

/-- C2: a dial result in `{canceled, busy, failed}` at any attempt redirects
to `call-timeout` (the voicemail fallback), and the emitted document never
redirects to any `dial-client?attempt=k` URL. -/
theorem C2_rejected_statuses_go_to_voicemail (cfg : Config) (q : Option String)
    (s : String) (hs : s ∈ ["canceled", "busy", "failed"]) :
    dialResultRoute cfg q (some s) =
      ⟨200, HttpBody.xml [Verb.redirect (callTimeoutUrl cfg)], []⟩ ∧
    ∀ k : Int, Verb.redirect (dialClientUrl cfg k) ∉
      docOf (dialResultRoute cfg q (some s)) := by
  have hmain : dialResultRoute cfg q (some s) =
      ⟨200, HttpBody.xml [Verb.redirect (callTimeoutUrl cfg)], []⟩ := by
    unfold dialResultRoute dialResultHandler
    rw [if_neg ?hc, if_pos ?hi]
    case hc =>
      simp only [List.mem_cons, List.not_mem_nil, or_false] at hs
      rcases hs with rfl | rfl | rfl <;> decide
    case hi =>
      simp only [List.mem_cons, List.not_mem_nil, or_false] at hs
      rcases hs with rfl | rfl | rfl <;> decide
  refine ⟨hmain, ?_⟩
  intro k
  rw [hmain]
  unfold docOf
  simp only [List.mem_singleton]
  intro heq
  injection heq with hurl
  exact dialClientUrl_ne_callTimeoutUrl cfg k hurl

theorem C2_witness :
    dialResultRoute cfgW (some "7") (some "busy") =
      ⟨200, HttpBody.xml [Verb.redirect (callTimeoutUrl cfgW)], []⟩ :=
  (C2_rejected_statuses_go_to_voicemail cfgW (some "7") "busy" (by decide)).1

/-- C6: a `completed` dial result at any attempt produces an empty
call-control document and dispatches no notification. -/
theorem C6_completed_empty_no_notification (cfg : Config) (q : Option String) :
    dialResultRoute cfg q (some "completed") = ⟨200, HttpBody.xml [], []⟩ := by
  unfold dialResultRoute dialResultHandler
  rw [if_pos rfl]

/-- C3 counterexample: with provisioned number `+15550001111`, an inbound
event whose `To` is `+19998887777` yields an outbound-bridge dial document
containing no spoken message at all — not a terminal "not configured"
spoken-message document. -/
theorem C3_counterexample :
    twimlApp cfgW "+19998887777" "+17775551234" "CA123" =
      ⟨200, HttpBody.xml
        [Verb.dialNumber (some cfgW.TWILIO_PHONE_NUMBER) none
          (some (dialStatusUrl cfgW)) "+19998887777"], []⟩ ∧
    hasSay (docOf (twimlApp cfgW "+19998887777" "+17775551234" "CA123")) = false := by
  constructor <;> rfl

/-- C3 amended: a call event whose `To` does not equal the provisioned
number is treated as an outbound Voice-SDK call: the handler returns a
single dial instruction bridging to `To` with the provisioned number as
caller ID and `dial-status` as the action, dispatches no notification, and
emits no spoken message; no "not configured" response exists. -/
theorem C3_amended_outbound_bridge (cfg : Config) (To From CallSid : String)
    (h : To ≠ cfg.TWILIO_PHONE_NUMBER) :
    twimlApp cfg To From CallSid =
      ⟨200, HttpBody.xml
        [Verb.dialNumber (some cfg.TWILIO_PHONE_NUMBER) none
          (some (dialStatusUrl cfg)) To], []⟩ ∧
    hasSay (docOf (twimlApp cfg To From CallSid)) = false := by
  have hmain : twimlApp cfg To From CallSid =
      ⟨200, HttpBody.xml
        [Verb.dialNumber (some cfg.TWILIO_PHONE_NUMBER) none
          (some (dialStatusUrl cfg)) To], []⟩ := by
    unfold twimlApp
    rw [if_neg h]
  exact ⟨hmain, by rw [hmain]; rfl⟩

theorem C3_witness :
    twimlApp cfgW "+12223334444" "+17775551234" "CA999" =
      ⟨200, HttpBody.xml
        [Verb.dialNumber (some cfgW.TWILIO_PHONE_NUMBER) none
          (some (dialStatusUrl cfgW)) "+12223334444"], []⟩ :=
  (C3_amended_outbound_bridge cfgW "+12223334444" "+17775551234" "CA999" (by decide)).1

/-- C4 counterexample: the `dial-client` callback at received attempt 3
embeds attempt 3 — not 4 — in the `action` URL of the dial verb it
returns, so the emitted action attempt is not the received attempt plus
one on that callback. -/
theorem C4_counterexample :
    dialActions (docOf (dialClientRoute cfgW (some "3") (some "+17775551234"))) =
      [some (dialResultUrl cfgW 3)] ∧
    dialResultUrl cfgW 3 ≠ dialResultUrl cfgW 4 := by
  constructor
  · rfl
  · decide

/-- C4 amended: `dial-client` echoes the received attempt `n` unchanged
into its dial `action` URL, and `dial-result` on `no-answer` with
`1 ≤ n ≤ 9` emits `dial-client?attempt=n+1` in its redirect; the increment
by one therefore happens once per dial-client→dial-result round trip, on
the dial-result hop, not on every callback. -/
theorem C4_amended_round_trip_increment (cfg : Config) (q : Option String)
    (n : Int) (To : Option String) (hq : jsAttempt q = n) :
    dialActions (docOf (dialClientRoute cfg q To)) = [some (dialResultUrl cfg n)] ∧
    (1 ≤ n → n ≤ 9 →
      docOf (dialResultRoute cfg q (some "no-answer")) =
        [Verb.redirect (dialClientUrl cfg (n + 1))]) := by
  constructor
  · unfold dialClientRoute dialClientHandler
    rw [hq]
    rfl
  · intro h1 h9
    rw [dialResultRoute, hq,
      dialResultHandler_default cfg n (some "no-answer") (by decide) rfl,
      if_pos (by unfold maxAttempts; omega)]
    rfl

theorem C4_witness :
    dialActions (docOf (dialClientRoute cfgW (some "2") none)) =
      [some (dialResultUrl cfgW 2)] ∧
    docOf (dialResultRoute cfgW (some "2") (some "no-answer")) =
      [Verb.redirect (dialClientUrl cfgW 3)] :=
  ⟨(C4_amended_round_trip_increment cfgW (some "2") 2 none (by decide)).1,
   (C4_amended_round_trip_increment cfgW (some "2") 2 none (by decide)).2
     (by decide) (by decide)⟩

/-- C5: when a voicemail prompt is configured, a `call-timeout` request
whose `DialCallStatus` is absent or one of the unanswered statuses yields
the prompt followed by a record verb bounded at 300 seconds naming the
recording callback, while `DialCallStatus = completed` yields an empty
document. -/
theorem C5_call_timeout_voicemail (cfg : Config) (m : String)
    (hm : cfg.VOICE_MESSAGE = some m) (hne : m ≠ "") :
    (∀ s : Option String,
      s = none ∨ s ∈ [some "no-answer", some "busy", some "failed", some "canceled"] →
      callTimeout cfg s =
        ⟨200, HttpBody.xml [Verb.say none m, Verb.record 300 (recordingUrl cfg)], []⟩) ∧
    callTimeout cfg (some "completed") = ⟨200, HttpBody.xml [], []⟩ := by
  have hv : jsTruthy cfg.VOICE_MESSAGE = true := by
    rw [hm]
    simpa [jsTruthy] using hne
  constructor
  · intro s hs
    have hcond : ∀ s' : Option String,
        (!jsTruthy s' ||
          jsIncludes ["no-answer", "busy", "failed", "canceled"] s') = true →
        callTimeout cfg s' =
          ⟨200, HttpBody.xml [Verb.say none m, Verb.record 300 (recordingUrl cfg)], []⟩ := by
      intro s' h
      unfold callTimeout
      rw [if_pos h, if_pos hv, hm]
      rfl
    rcases hs with rfl | hs
    · exact hcond none (by decide)
    · simp only [List.mem_cons, List.not_mem_nil, or_false] at hs
      rcases hs with rfl | rfl | rfl | rfl <;> exact hcond _ (by decide)
  · unfold callTimeout
    rw [if_neg (by decide)]

theorem C5_witness :
    callTimeout cfgW (some "busy") =
      ⟨200, HttpBody.xml
        [Verb.say none "Please leave a message after the beep.",
         Verb.record 300 (recordingUrl cfgW)], []⟩ :=
  (C5_call_timeout_voicemail cfgW "Please leave a message after the beep."
    rfl (by decide)).1 (some "busy") (by simp)

/-- C8: the recording callback dispatches exactly one voicemail
notification when `RecordingDuration` parses to a positive integer,
dispatches none when it parses to 0 or is absent, and always responds
200 OK. -/
theorem C8_recording_notification (cfg : Config) (rd : Option String) :
    (∀ s k, rd = some s → jsParseInt s = some k → 0 < k →
      recording cfg rd = ⟨200, HttpBody.text "OK", [Notification.voicemail s]⟩) ∧
    (∀ s, rd = some s → jsParseInt s = some 0 →
      recording cfg rd = ⟨200, HttpBody.text "OK", []⟩) ∧
    (rd = none → recording cfg rd = ⟨200, HttpBody.text "OK", []⟩) ∧
    (recording cfg rd).status = 200 := by
  refine ⟨?_, ?_, ?_, ?_⟩
  · intro s k hrd hk hk0
    subst hrd
    have hs : s ≠ "" := by
      intro h
      subst h
      rw [show jsParseInt "" = none from rfl] at hk
      exact Option.noConfusion hk
    unfold recording
    rw [if_pos ?hc]
    case hc =>
      simp only [jsTruthy, jsParseIntOpt, hk, jsGtZero, Bool.and_eq_true,
        bne_iff_ne, ne_eq, decide_eq_true_eq]
      exact ⟨hs, hk0⟩
    rfl
  · intro s hrd hk
    subst hrd
    unfold recording
    rw [if_neg ?hc]
    case hc =>
      simp only [jsTruthy, jsParseIntOpt, hk, jsGtZero, Bool.and_eq_true,
        bne_iff_ne, ne_eq, decide_eq_true_eq]
      intro hconj
      omega
  · intro hrd
    subst hrd
    rfl
  · unfold recording
    split <;> rfl

theorem C8_witness :
    (recording cfgW (some "7") =
      ⟨200, HttpBody.text "OK", [Notification.voicemail "7"]⟩) ∧
    (recording cfgW (some "0") = ⟨200, HttpBody.text "OK", []⟩) :=
  ⟨(C8_recording_notification cfgW (some "7")).1 "7" 7 rfl (by decide) (by decide),
   (C8_recording_notification cfgW (some "0")).2.1 "0" rfl (by decide)⟩

/-- C9: in production with the auth token configured, an invalid carrier
signature is rejected with HTTP 403 and the handler is never invoked (no
call-control document, no notification); outside production validation is
bypassed and the handler response is returned unchanged. -/
theorem C9_signature_gate (cfg : Config) (signatureValid : Bool) (r : Response)
    (t : String) :
    (cfg.NODE_ENV = "production" → cfg.TWILIO_AUTH_TOKEN = some t → t ≠ "" →
      signatureValid = false →
      runRoute cfg signatureValid r =
        ⟨403, HttpBody.json "Invalid Twilio signature", []⟩) ∧
    (cfg.NODE_ENV ≠ "production" → runRoute cfg signatureValid r = r) := by
  constructor
  · intro hp ht htne hsig
    subst hsig
    unfold runRoute validateTwilioRequest
    rw [if_pos hp, ht, if_neg ?htok]
    case htok =>
      simp only [jsTruthy, bne_iff_ne, ne_eq, Bool.not_eq_true']
      simp [htne]
    rfl
  · intro hp
    unfold runRoute validateTwilioRequest
    rw [if_neg hp]

theorem C9_witness :
    (runRoute cfgW false ⟨200, HttpBody.xml [], []⟩ =
      ⟨403, HttpBody.json "Invalid Twilio signature", []⟩) ∧
    (runRoute cfgDev false ⟨200, HttpBody.xml [], []⟩ =
      ⟨200, HttpBody.xml [], []⟩) :=
  ⟨(C9_signature_gate cfgW false ⟨200, HttpBody.xml [], []⟩ "authtok").1
      rfl rfl (by decide) rfl,
   (C9_signature_gate cfgDev false ⟨200, HttpBody.xml [], []⟩ "x").2 (by decide)⟩

/-- C10: a `dial-result` request whose `DialCallStatus` is absent or any
string outside `{completed, canceled, busy, failed, no-answer}` behaves
exactly as `no-answer`: it redirects to `dial-client?attempt=n+1` when the
received attempt `n` is below 10 and to `call-timeout` when `n ≥ 10`. -/
theorem C10_unknown_status_as_no_answer (cfg : Config) (q : Option String)
    (n : Int) (s : Option String) (hq : jsAttempt q = n)
    (hs : s = none ∨ ∃ str, s = some str ∧
      str ∉ ["completed", "canceled", "busy", "failed", "no-answer"]) :
    dialResultRoute cfg q s = dialResultRoute cfg q (some "no-answer") ∧
    (n < 10 → dialResultRoute cfg q s =
      ⟨200, HttpBody.xml [Verb.redirect (dialClientUrl cfg (n + 1))], []⟩) ∧
    (10 ≤ n → dialResultRoute cfg q s =
      ⟨200, HttpBody.xml [Verb.redirect (callTimeoutUrl cfg)], []⟩) := by
  have h1 : s ≠ some "completed" := by
    rcases hs with rfl | ⟨str, rfl, hstr⟩
    · exact Option.noConfusion
    · intro h
      injection h with h'
      exact hstr (by rw [h']; simp)
  have h2 : jsIncludes ["canceled", "busy", "failed"] s = false := by
    rcases hs with rfl | ⟨str, rfl, hstr⟩
    · rfl
    · rw [Bool.eq_false_iff]
      intro h
      rw [jsIncludes_some_iff] at h
      apply hstr
      simp only [List.mem_cons, List.not_mem_nil, or_false] at h ⊢
      tauto
  have hr : dialResultRoute cfg q s =
      if n < maxAttempts then
        ⟨200, HttpBody.xml [Verb.redirect (dialClientUrl cfg (n + 1))], []⟩
      else
        ⟨200, HttpBody.xml [Verb.redirect (callTimeoutUrl cfg)], []⟩ := by
    rw [dialResultRoute, hq]
    exact dialResultHandler_default cfg n s h1 h2
  have hna : dialResultRoute cfg q (some "no-answer") =
      if n < maxAttempts then
        ⟨200, HttpBody.xml [Verb.redirect (dialClientUrl cfg (n + 1))], []⟩
      else
        ⟨200, HttpBody.xml [Verb.redirect (callTimeoutUrl cfg)], []⟩ := by
    rw [dialResultRoute, hq]
    exact dialResultHandler_default cfg n (some "no-answer") (by decide) rfl
  refine ⟨by rw [hr, hna], ?_, ?_⟩
  · intro h10
    rw [hr, if_pos (by unfold maxAttempts; omega)]
  · intro h10
    rw [hr, if_neg (by unfold maxAttempts; omega)]

theorem C10_witness :
    (dialResultRoute cfgW (some "4") (some "ringing") =
      ⟨200, HttpBody.xml [Verb.redirect (dialClientUrl cfgW 5)], []⟩) ∧
    (dialResultRoute cfgW (some "12") none =
      ⟨200, HttpBody.xml [Verb.redirect (callTimeoutUrl cfgW)], []⟩) :=
  ⟨(C10_unknown_status_as_no_answer cfgW (some "4") 4 (some "ringing") (by decide)
      (Or.inr ⟨"ringing", rfl, by decide⟩)).2.1 (by decide),
   (C10_unknown_status_as_no_answer cfgW (some "12") 12 none (by decide)
      (Or.inl rfl)).2.2 (by decide)⟩

/-- C7: the status callback dispatches exactly one missed-call notification
if and only if the call is inbound to the provisioned number and either
completed with a parsed duration below 5 seconds or terminated with one of
the four unanswered statuses; in every other case it dispatches none, and
it always responds 200 OK. -/
theorem C7_status_missed_iff (cfg : Config) (CallStatus CallDuration : Option String)
    (From CallSid To Direction : String) :
    voiceStatus cfg CallStatus CallDuration From CallSid To Direction =
      ⟨200, HttpBody.text "OK",
        if Direction = "inbound" ∧ To = cfg.TWILIO_PHONE_NUMBER ∧
            ((CallStatus = some "completed" ∧ jsOr (jsParseIntOpt CallDuration) 0 < 5) ∨
              CallStatus ∈ [some "failed", some "canceled", some "busy", some "no-answer"])
        then [Notification.missedCall From CallSid] else []⟩ := by
  unfold voiceStatus
  rcases CallStatus with _ | s
  · simp [jsIncludes]
  · by_cases hc : s = "completed"
    · subst hc
      by_cases hd : Direction = "inbound" ∧ To = cfg.TWILIO_PHONE_NUMBER
      · by_cases h5 : jsOr (jsParseIntOpt CallDuration) 0 < 5
        · simp [jsIncludes, hd.1, hd.2, h5]
        · simp [jsIncludes, hd.1, hd.2, h5]
      · have hrhs : ¬(Direction = "inbound" ∧ To = cfg.TWILIO_PHONE_NUMBER ∧
            (((some "completed" : Option String) = some "completed" ∧
              jsOr (jsParseIntOpt CallDuration) 0 < 5) ∨
              (some "completed" : Option String) ∈
                [some "failed", some "canceled", some "busy", some "no-answer"])) :=
          fun h => hd ⟨h.1, h.2.1⟩
        rw [if_pos rfl, if_neg hd, if_neg (by decide), if_neg hrhs]
        rfl
    · have hnc : (some s : Option String) ≠ some "completed" := by simpa using hc
      by_cases hm : s ∈ ["failed", "canceled", "busy", "no-answer"]
      · have hinc : jsIncludes ["failed", "canceled", "busy", "no-answer"] (some s) = true :=
          (jsIncludes_some_iff _ _).mpr hm
        simp only [List.mem_cons, List.not_mem_nil, or_false] at hm
        by_cases hd : Direction = "inbound" ∧ To = cfg.TWILIO_PHONE_NUMBER
        · rcases hm with rfl | rfl | rfl | rfl <;> simp [hinc, hd.1, hd.2]
        · have hrhs : ¬(Direction = "inbound" ∧ To = cfg.TWILIO_PHONE_NUMBER ∧
              (((some s : Option String) = some "completed" ∧
                jsOr (jsParseIntOpt CallDuration) 0 < 5) ∨
                (some s : Option String) ∈
                  [some "failed", some "canceled", some "busy", some "no-answer"])) :=
            fun h => hd ⟨h.1, h.2.1⟩
          rw [if_neg hnc, if_pos hinc, if_neg hd, if_neg hrhs]
          rfl
      · have hinc : jsIncludes ["failed", "canceled", "busy", "no-answer"] (some s) = false := by
          rw [Bool.eq_false_iff]
          intro h
          exact hm ((jsIncludes_some_iff _ _).mp h)
        simp only [List.mem_cons, List.not_mem_nil, or_false, not_or] at hm
        simp [hinc, hnc, hm]

end Nomadic
